import Mathlib

/-!
Shallow embedding of the IMEI checker (imei_checker_gui.py): the check-digit
computation (IMEModel.calcular_digito_verificacao), the cached device lookup
(IMEModel.get_device_info) and the batch orchestration
(IMEController.process_imeis), together with theorems settling the spec claims.

Network I/O is modelled by an explicit transport function from the query
identifier and API key to either a JSON payload or a raised exception; the
module-level CACHE dictionary, the transport call counter, the issued query
trace and the log output are threaded as explicit state.
-/

namespace IMEIChecker

/-- Python `int(ch)` on a single character: succeeds on a decimal digit,
raises ValueError otherwise. -/
def int_of_char (c : Char) : Except String Nat :=
  if c.isDigit then .ok (c.toNat - 48)
  else .error ("invalid literal for int() with base 10: " ++ String.singleton c)

/-- The summation loop of calcular_digito_verificacao: iterates over the
reversed digit characters with index i, doubling at odd i and subtracting 9
from doubled values above 9, accumulating soma; the first non-digit character
raises (propagates an error). -/
def somaLuhn : List Char → Nat → Nat → Except String Nat
  | [], _, soma => .ok soma
  | c :: cs, i, soma =>
    match int_of_char c with
    | .error e => .error e
    | .ok digito =>
      let digito := if i % 2 = 1 then
        (if digito * 2 > 9 then digito * 2 - 9 else digito * 2) else digito
      somaLuhn cs (i + 1) (soma + digito)

/-- IMEModel.calcular_digito_verificacao: Luhn check digit of a 14-digit base.
Raises (returns .error) when the length is not 14, or when a character is not
a decimal digit (the uncaught ValueError from int()). -/
def calcular_digito_verificacao (imei : String) : Except String Nat :=
  if imei.length ≠ 14 then .error "O IMEI deve ter exatamente 14 dígitos."
  else
    match somaLuhn imei.data.reverse 0 0 with
    | .error e => .error e
    | .ok soma => .ok ((10 - soma % 10) % 10)

/-- One step of the spec's Luhn description: at odd 0-indexed position of the
reversed sequence double the digit, subtracting 9 when the doubled value
exceeds 9. -/
def luhnStep (p : Nat × Nat) : Nat :=
  if p.1 % 2 = 1 then (if p.2 * 2 > 9 then p.2 * 2 - 9 else p.2 * 2) else p.2

/-- Modelled from the spec's words (§4.1), for the refinement claim C2:
reverse the digits, double each digit at odd 0-indexed position of the
reversed sequence, subtract 9 from doubled values exceeding 9, sum, and
return (10 − (sum mod 10)) mod 10. -/
def computeCheckDigit_spec (s : String) : Nat :=
  let ds := s.data.reverse.map (fun c => c.toNat - 48)
  let soma := (ds.enum.map luhnStep).sum
  (10 - soma % 10) % 10

/-- The `result` object of the service's JSON payload (`brand`, `model`
fields, each possibly absent). -/
structure ResultData where
  brand : Option String
  model : Option String
deriving DecidableEq, Repr

/-- A parsed JSON payload from the lookup service: `status`, `result` and
`message` fields, each possibly absent. -/
structure Payload where
  status : Option String
  result : Option ResultData
  message : Option String
deriving DecidableEq, Repr

/-- Outcome of one HTTP round trip: either a parsed payload, or an exception
(connection error, timeout, non-2xx status via raise_for_status, or a JSON
parse failure). -/
inductive HttpOutcome where
  | ok (data : Payload)
  | exn (e : String)
deriving DecidableEq, Repr

/-- The transport layer: maps the queried IMEI and the API key to the HTTP
outcome. Stubs for the theorems are concrete functions of this type. -/
def Transport : Type := String → String → HttpOutcome

/-- The device_info dictionary built on a successful lookup. -/
structure DeviceRecord where
  imei : String
  marca : Option String
  modelo : Option String
  so : String
deriving DecidableEq, Repr

/-- Result of a Python call as seen by the caller: a returned value, or a
propagated (uncaught) exception. -/
inductive PyResult (α : Type) where
  | val (a : α)
  | raised (e : String)
deriving DecidableEq, Repr

/-- The observable effect state threaded through resolutions: the
module-level CACHE dictionary, the transport call counter, the trace of
identifiers actually sent to the transport, and the log output. -/
structure NetState where
  cache : List (String × DeviceRecord)
  calls : Nat
  queries : List String
  log : List String
deriving DecidableEq, Repr

def NetState.empty : NetState := ⟨[], 0, [], []⟩

/-- Python `x if x is not None`-style rendering of an optional message in the
log line (None prints as "None"). -/
def showOptMsg : Option String → String
  | none => "None"
  | some m => m

/-- IMEModel.get_device_info. Checks CACHE first (outside the try block); on
a miss performs the transport call inside try/except: an exception is caught
and logged, a payload with status "Done" and a present result builds the
device_info record and stores it in CACHE, any other payload logs the service
message and returns None. The PyResult layer records whether an exception
escapes to the caller (the except-Exception clause means none ever does). -/
def get_device_info (t : Transport) (imei api_key : String) (s : NetState) :
    PyResult (Option DeviceRecord) × NetState :=
  match s.cache.lookup imei with
  | some rec =>
    (.val (some rec),
     { s with log := s.log ++ ["Retornando dados do cache para IMEI: " ++ imei] })
  | none =>
    let s1 : NetState :=
      { s with calls := s.calls + 1, queries := s.queries ++ [imei] }
    match t imei api_key with
    | .exn e =>
      (.val none,
       { s1 with log := s1.log ++ ["Erro na requisição para IMEI " ++ imei ++ ": " ++ e] })
    | .ok data =>
      match data.result with
      | some res =>
        if data.status = some "Done" then
          let device_info : DeviceRecord := ⟨imei, res.brand, res.model, "Desconhecido"⟩
          (.val (some device_info),
           { s1 with cache := (imei, device_info) :: s1.cache })
        else
          (.val none,
           { s1 with log := s1.log ++
              ["Erro na API para IMEI " ++ imei ++ ": " ++ showOptMsg data.message] })
      | none =>
        (.val none,
         { s1 with log := s1.log ++
            ["Erro na API para IMEI " ++ imei ++ ": " ++ showOptMsg data.message] })

/-- The `for digito in range(10)` loop of process_imeis for a 14-digit base:
tries candidates imei ++ "0", imei ++ "1", ... sequentially, returning the
first successful device_info and stopping there; returns None after the loop
exhausts (the for-else case); an exception raised by the body propagates. -/
def tryDigitsAux (t : Transport) (api_key imei : String) :
    Nat → Nat → NetState → PyResult (Option DeviceRecord) × NetState
  | 0, _, net => (.val none, net)
  | k + 1, d, net =>
    match get_device_info t (imei ++ toString d) api_key net with
    | (.raised e, net1) => (.raised e, net1)
    | (.val (some r), net1) => (.val (some r), net1)
    | (.val none, net1) => tryDigitsAux t api_key imei k (d + 1) net1

def tryDigits (t : Transport) (api_key imei : String) (net : NetState) :
    PyResult (Option DeviceRecord) × NetState :=
  tryDigitsAux t api_key imei 10 0 net

/-- A message shown through the view: an appended device_info result, an
error dialog, or an info dialog. -/
inductive ViewEvent where
  | addResult (r : DeviceRecord)
  | showError (msg : String)
  | showInfo (msg : String)
deriving DecidableEq, Repr

/-- State of one batch run: the shared network/cache state, the ordered view
events, the progress-bar counter, the identifiers that entered the per-IMEI
try block (instrumentation for the batch-continuation claims), and the
accumulated all_device_info list. -/
structure BatchState where
  net : NetState
  events : List ViewEvent
  progress : Nat
  attempted : List String
  all_device_info : List DeviceRecord
deriving DecidableEq, Repr

def BatchState.init : BatchState := ⟨NetState.empty, [], 0, [], []⟩

/-- Python str.strip: drop leading and trailing whitespace. -/
def py_strip (s : String) : String :=
  ⟨((s.data.dropWhile Char.isWhitespace).reverse.dropWhile Char.isWhitespace).reverse⟩

/-- Python str.isdigit (restricted to ASCII decimal digits): true iff the
string is non-empty and every character is a digit. -/
def py_isdigit (s : String) : Bool :=
  s.length ≠ 0 && s.data.all Char.isDigit

/-- The body of the per-IMEI loop of IMEController.process_imeis: skip when
the stripped string is empty; inside try, raise ValueError when the raw
string is not all-digit or its length is not 14 or 15 (caught below, shown as
an error, without advancing the progress bar); for a 14-digit base run the
candidate loop and record the result or the "Nenhum IMEI válido" error, then
advance the progress bar; for a 15-digit IMEI resolve directly, recording a
result only on success, then advance the progress bar. -/
def process_one (t : Transport) (api_key : String) (st : BatchState)
    (imei : String) : BatchState :=
  if py_strip imei = "" then st
  else
    let st := { st with attempted := st.attempted ++ [imei] }
    if ¬(py_isdigit imei = true ∧ (imei.length = 14 ∨ imei.length = 15)) then
      { st with events := st.events ++
          [.showError ("IMEI inválido: " ++ imei ++ "\nMotivo: IMEI inválido.")] }
    else if imei.length = 14 then
      match tryDigits t api_key imei st.net with
      | (.val (some r), net1) =>
        { st with net := net1,
                  events := st.events ++ [.addResult r],
                  all_device_info := st.all_device_info ++ [r],
                  progress := st.progress + 1 }
      | (.val none, net1) =>
        { st with net := net1,
                  events := st.events ++
                    [.showError ("Nenhum IMEI válido encontrado para: " ++ imei)],
                  progress := st.progress + 1 }
      | (.raised e, net1) =>
        { st with net := net1,
                  events := st.events ++
                    [.showError ("Erro ao processar IMEI " ++ imei ++ ": " ++ e)] }
    else
      match get_device_info t imei api_key st.net with
      | (.val (some r), net1) =>
        { st with net := net1,
                  events := st.events ++ [.addResult r],
                  all_device_info := st.all_device_info ++ [r],
                  progress := st.progress + 1 }
      | (.val none, net1) =>
        { st with net := net1, progress := st.progress + 1 }
      | (.raised e, net1) =>
        { st with net := net1,
                  events := st.events ++
                    [.showError ("Erro ao processar IMEI " ++ imei ++ ": " ++ e)] }

/-- IMEController.process_imeis: guard on an empty API key or an empty IMEI
list, then fold the per-IMEI body over the list, and finally report either
the export-ready info message or "Nenhum resultado encontrado." -/
def process_imeis (t : Transport) (api_key : String) (imeis : List String) :
    BatchState :=
  if api_key = "" ∨ imeis = [] then
    { BatchState.init with events :=
        [.showError "Por favor, insira a chave da API e pelo menos um IMEI."] }
  else
    let st := imeis.foldl (process_one t api_key) BatchState.init
    if st.all_device_info ≠ [] then
      { st with events := st.events ++
          [.showInfo "Consulta concluída. Use o menu 'Arquivo' para exportar os resultados."] }
    else
      { st with events := st.events ++ [.showInfo "Nenhum resultado encontrado."] }

/-- The per-identifier outcome events of a batch (results and error dialogs,
excluding the batch-level info dialogs). -/
def outcomeEvents (st : BatchState) : List ViewEvent :=
  st.events.filter (fun ev => match ev with
    | .addResult _ => true
    | .showError _ => true
    | .showInfo _ => false)

/-- The device record get_device_info builds from a payload, None when the
status is not "Done" or the result is missing. -/
def payloadResult (imei : String) (data : Payload) : Option DeviceRecord :=
  match data.result with
  | some res =>
    if data.status = some "Done" then
      some ⟨imei, res.brand, res.model, "Desconhecido"⟩
    else none
  | none => none

/-- The value a cache-missing get_device_info call returns for a given
transport behaviour. -/
def netOutcome (t : Transport) (imei api_key : String) : Option DeviceRecord :=
  match t imei api_key with
  | .exn _ => none
  | .ok data => payloadResult imei data

/-- Outcome of completion candidate d of a 14-digit base, absent any caching. -/
def candOutcome (t : Transport) (api_key base : String) (d : Nat) : Option DeviceRecord :=
  netOutcome t (base ++ toString d) api_key

/-- First successful candidate digit in the window [d, d+k), if any. -/
def firstHit (t : Transport) (api_key base : String) (d k : Nat) : Option Nat :=
  (List.range' d k).find? (fun j => (candOutcome t api_key base j).isSome)

/-- Number of candidates the completion loop consumes in the window
[d, d+k): up to and including the first success, or all k on total failure. -/
def stopLen (t : Transport) (api_key base : String) (d k : Nat) : Nat :=
  match firstHit t api_key base d k with
  | some j => j - d + 1
  | none => k

/-- Transport stub that answers "Done" with brand BrandX and model ModelY for
the exact identifier "123456789012345" and fails with a connection error for
every other query. -/
def stubDone15 : Transport := fun imei _ =>
  if imei = "123456789012345" then
    .ok ⟨some "Done", some ⟨some "BrandX", some "ModelY"⟩, none⟩
  else .exn "disconnected"

/-- Transport stub that fails every query with a connection error. -/
def stubFailAll : Transport := fun _ _ => .exn "disconnected"

/-- Transport stub where exactly the completion candidate with digit 7 of the
base "12345678901234" succeeds. -/
def stubDigit7 : Transport := fun imei _ =>
  if imei = "123456789012347" then
    .ok ⟨some "Done", some ⟨some "B", some "M"⟩, none⟩
  else .exn "x"

/-- Transport stub whose payload reports a not-found status. -/
def stubNotFound : Transport := fun _ _ =>
  .ok ⟨some "Error", none, some "IMEI not found"⟩

/-! ### Helper lemmas: the check-digit computation -/

lemma int_of_char_digit (c : Char) (h : c.isDigit = true) :
    int_of_char c = .ok (c.toNat - 48) := by
  simp [int_of_char, h]

lemma mod10_bound (x : Nat) : (10 - x % 10) % 10 ≤ 9 := by omega

/-- On an all-digit character list the summation loop returns the
luhnStep-transformed sum, positions counted from i. -/
lemma somaLuhn_ok (l : List Char) : ∀ (i acc : Nat),
    (∀ c ∈ l, c.isDigit = true) →
    somaLuhn l i acc =
      .ok (acc + (((l.map (fun c => c.toNat - 48)).enumFrom i).map luhnStep).sum) := by
  induction l with
  | nil => intro i acc _; simp [somaLuhn]
  | cons c cs ih =>
    intro i acc h
    have hc : c.isDigit = true := h c (List.mem_cons_self c cs)
    have hcs : ∀ x ∈ cs, x.isDigit = true := fun x hx => h x (List.mem_cons_of_mem c hx)
    rw [somaLuhn, int_of_char_digit c hc]
    show somaLuhn cs (i + 1)
        (acc + (if i % 2 = 1 then
          (if (c.toNat - 48) * 2 > 9 then (c.toNat - 48) * 2 - 9 else (c.toNat - 48) * 2)
          else (c.toNat - 48))) = _
    rw [ih (i + 1) _ hcs]
    simp only [List.map_cons, List.enumFrom, List.map, List.sum_cons, luhnStep]
    congr 1
    omega

/-- A non-digit character anywhere in the list makes the summation loop
raise. -/
lemma somaLuhn_err (l : List Char) : ∀ (i acc : Nat) (c : Char), c ∈ l →
    c.isDigit = false → ∃ e, somaLuhn l i acc = .error e := by
  induction l with
  | nil => intro i acc c hc _; cases hc
  | cons a cs ih =>
    intro i acc c hc hnd
    by_cases ha : a.isDigit = true
    · have hcs : c ∈ cs := by
        rcases List.mem_cons.mp hc with h | h
        · rw [h] at hnd; rw [ha] at hnd; cases hnd
        · exact h
      rw [somaLuhn, int_of_char_digit a ha]
      exact ih (i + 1) _ c hcs hnd
    · refine ⟨"invalid literal for int() with base 10: " ++ String.singleton a, ?_⟩
      rw [somaLuhn]
      simp [int_of_char, ha]

/-! ### Claims C2, C4, C8: the check-digit computation -/

/-- C2: for every string of exactly 14 decimal digits,
calcular_digito_verificacao succeeds and returns exactly the value described
by the spec's algorithm (reverse, double at odd 0-indexed reversed positions
subtracting 9 above 9, sum, (10 − sum mod 10) mod 10), a single digit in
0–9. Determinism is definitional: the function is pure. -/
theorem C2_check_digit_follows_spec (s : String)
    (hlen : s.length = 14) (hdig : s.data.all Char.isDigit = true) :
    calcular_digito_verificacao s = .ok (computeCheckDigit_spec s) ∧
    computeCheckDigit_spec s ≤ 9 := by
  have hall : ∀ c ∈ s.data.reverse, c.isDigit = true := by
    intro c hc
    exact (List.all_eq_true.mp hdig) c (List.mem_reverse.mp hc)
  constructor
  · rw [calcular_digito_verificacao, if_neg (by simp [hlen])]
    rw [somaLuhn_ok _ 0 0 hall]
    simp [computeCheckDigit_spec, List.enum]
  · exact mod10_bound _

/-- C2 witness at the concrete base "35290986021057". -/
theorem C2_check_digit_follows_spec_witness :
    calcular_digito_verificacao "35290986021057" =
      .ok (computeCheckDigit_spec "35290986021057") ∧
    computeCheckDigit_spec "35290986021057" ≤ 9 :=
  C2_check_digit_follows_spec "35290986021057" (by decide) (by decide)

/-- C4 counterexample: the code computes check digit 2 for both bases of the
claim, not 3 and not 5 (the claim's expected values match neither the code
nor a standard Luhn computation). -/
theorem C4_counterexample :
    calcular_digito_verificacao "35290986021057" ≠ .ok 3 ∧
    calcular_digito_verificacao "86231411165679" ≠ .ok 5 := by
  constructor
  · have h : calcular_digito_verificacao "35290986021057" = .ok 2 := rfl
    rw [h]; simp
  · have h : calcular_digito_verificacao "86231411165679" = .ok 2 := rfl
    rw [h]; simp

/-- C4 amended: calcular_digito_verificacao returns 2 for the base
"35290986021057" and 2 for the base "86231411165679". -/
theorem C4_check_digit_values :
    calcular_digito_verificacao "35290986021057" = .ok 2 ∧
    calcular_digito_verificacao "86231411165679" = .ok 2 :=
  ⟨rfl, rfl⟩

/-- C8: calcular_digito_verificacao raises ValueError exactly off the happy
path: it returns a digit ≤ 9 for every string of 14 decimal digits, and
raises (an explicit length error, or the uncaught int() ValueError on a
non-digit character) for every other input. -/
theorem C8_invalid_inputs :
    (∀ s : String, s.length = 14 → s.data.all Char.isDigit = true →
      ∃ d, calcular_digito_verificacao s = .ok d ∧ d ≤ 9) ∧
    (∀ s : String, s.length ≠ 14 ∨ s.data.all Char.isDigit = false →
      ∃ e, calcular_digito_verificacao s = .error e) := by
  constructor
  · intro s hlen hdig
    have hall : ∀ c ∈ s.data.reverse, c.isDigit = true := by
      intro c hc
      exact (List.all_eq_true.mp hdig) c (List.mem_reverse.mp hc)
    have hs := somaLuhn_ok s.data.reverse 0 0 hall
    rw [Nat.zero_add] at hs
    refine ⟨_, ?_,
      mod10_bound (((s.data.reverse.map (fun c => c.toNat - 48)).enumFrom 0).map luhnStep).sum⟩
    rw [calcular_digito_verificacao, if_neg (by simp [hlen]), hs]
  · intro s h
    by_cases hlen : s.length = 14
    · have hdig : s.data.all Char.isDigit = false := by
        rcases h with h | h
        · exact absurd hlen h
        · exact h
      obtain ⟨c, hmem, hnd⟩ := by
        simpa using List.all_eq_false.mp hdig
      obtain ⟨e, he⟩ :=
        somaLuhn_err s.data.reverse 0 0 c (List.mem_reverse.mpr hmem)
          (Bool.not_eq_true _ ▸ hnd)
      refine ⟨e, ?_⟩
      rw [calcular_digito_verificacao, if_neg (by simp [hlen]), he]
    · exact ⟨"O IMEI deve ter exatamente 14 dígitos.",
        by rw [calcular_digito_verificacao, if_pos hlen]⟩

/-- C8 witness: a 14-digit input succeeds with a digit ≤ 9, and the claim's
example "1234567890123A" raises. -/
theorem C8_invalid_inputs_witness :
    (∃ d, calcular_digito_verificacao "12345678901234" = .ok d ∧ d ≤ 9) ∧
    (∃ e, calcular_digito_verificacao "1234567890123A" = .error e) :=
  ⟨C8_invalid_inputs.1 "12345678901234" (by decide) (by decide),
   C8_invalid_inputs.2 "1234567890123A" (Or.inr (by decide))⟩

/-! ### Helper lemmas: the resolver -/

lemma get_device_info_hit (t : Transport) (imei api_key : String) (s : NetState)
    (r : DeviceRecord) (h : s.cache.lookup imei = some r) :
    get_device_info t imei api_key s =
      (.val (some r),
       { s with log := s.log ++ ["Retornando dados do cache para IMEI: " ++ imei] }) := by
  simp only [get_device_info, h]

lemma get_device_info_miss_val (t : Transport) (imei api_key : String)
    (s : NetState) (h : s.cache.lookup imei = none) :
    (get_device_info t imei api_key s).1 = .val (netOutcome t imei api_key) := by
  simp only [get_device_info, h, netOutcome, payloadResult]
  cases ht : t imei api_key with
  | exn e => simp
  | ok data =>
    cases hr : data.result with
    | none => simp [hr]
    | some res =>
      by_cases hs2 : data.status = some "Done" <;> simp [hr, hs2]

lemma get_device_info_miss_calls (t : Transport) (imei api_key : String)
    (s : NetState) (h : s.cache.lookup imei = none) :
    (get_device_info t imei api_key s).2.calls = s.calls + 1 := by
  simp only [get_device_info, h]
  cases ht : t imei api_key with
  | exn e => simp
  | ok data =>
    cases hr : data.result with
    | none => simp [hr]
    | some res =>
      by_cases hs2 : data.status = some "Done" <;> simp [hr, hs2]

lemma get_device_info_miss_queries (t : Transport) (imei api_key : String)
    (s : NetState) (h : s.cache.lookup imei = none) :
    (get_device_info t imei api_key s).2.queries = s.queries ++ [imei] := by
  simp only [get_device_info, h]
  cases ht : t imei api_key with
  | exn e => simp
  | ok data =>
    cases hr : data.result with
    | none => simp [hr]
    | some res =>
      by_cases hs2 : data.status = some "Done" <;> simp [hr, hs2]

lemma get_device_info_miss_cache (t : Transport) (imei api_key : String)
    (s : NetState) (h : s.cache.lookup imei = none) :
    (get_device_info t imei api_key s).2.cache =
      (match netOutcome t imei api_key with
       | some r => (imei, r) :: s.cache
       | none => s.cache) := by
  simp only [get_device_info, h, netOutcome, payloadResult]
  cases ht : t imei api_key with
  | exn e => simp
  | ok data =>
    cases hr : data.result with
    | none => simp [hr]
    | some res =>
      by_cases hs2 : data.status = some "Done" <;> simp [hr, hs2]

/-- get_device_info returns a value to its caller for every cache state and
every transport behaviour: the except-Exception clause catches everything. -/
lemma get_device_info_val (t : Transport) (imei api_key : String) (s : NetState) :
    ∃ v s1, get_device_info t imei api_key s = (.val v, s1) := by
  cases hc : s.cache.lookup imei with
  | some r =>
    exact ⟨some r, _, get_device_info_hit t imei api_key s r hc⟩
  | none =>
    refine ⟨netOutcome t imei api_key, (get_device_info t imei api_key s).2, ?_⟩
    rw [← get_device_info_miss_val t imei api_key s hc]

/-! ### Claims C5, C6, C10: the resolver -/

/-- C5: the cache is consulted first and a hit answers with the cached record
and no transport activity; a success stores its record in the cache, and a
repeated call for the same identifier answers from the cache with the same
record, leaving the transport call counter, the query trace and the cache
itself unchanged. -/
theorem C5_cache_short_circuit (t : Transport) (imei api_key : String)
    (s : NetState) :
    (∀ r, s.cache.lookup imei = some r →
      (get_device_info t imei api_key s).1 = .val (some r) ∧
      (get_device_info t imei api_key s).2.calls = s.calls ∧
      (get_device_info t imei api_key s).2.queries = s.queries ∧
      (get_device_info t imei api_key s).2.cache = s.cache) ∧
    (∀ v s1, get_device_info t imei api_key s = (.val (some v), s1) →
      s1.cache.lookup imei = some v ∧
      (get_device_info t imei api_key s1).1 = .val (some v) ∧
      (get_device_info t imei api_key s1).2.calls = s1.calls ∧
      (get_device_info t imei api_key s1).2.queries = s1.queries ∧
      (get_device_info t imei api_key s1).2.cache = s1.cache) := by
  constructor
  · intro r h
    rw [get_device_info_hit t imei api_key s r h]
    exact ⟨rfl, rfl, rfl, rfl⟩
  · intro v s1 h
    have hlook : s1.cache.lookup imei = some v := by
      cases hc : s.cache.lookup imei with
      | some r =>
        have heq := (get_device_info_hit t imei api_key s r hc).symm.trans h
        rw [Prod.mk.injEq] at heq
        obtain ⟨h1, h2⟩ := heq
        have hv : r = v := by
          injection h1 with h1
          exact Option.some.inj h1
        rw [← h2]
        simpa [hc] using congrArg some hv
      | none =>
        have h1 : (get_device_info t imei api_key s).1 = .val (some v) := by rw [h]
        have h2 : (get_device_info t imei api_key s).2 = s1 := by rw [h]
        rw [get_device_info_miss_val t imei api_key s hc] at h1
        have hn : netOutcome t imei api_key = some v := by
          injection h1
        have hcache := get_device_info_miss_cache t imei api_key s hc
        rw [hn] at hcache
        rw [← h2, hcache]
        simp [List.lookup]
    refine ⟨hlook, ?_⟩
    rw [get_device_info_hit t imei api_key s1 v hlook]
    exact ⟨rfl, rfl, rfl, rfl⟩

/-- C5 witness: with the stub succeeding on "123456789012345" and an empty
initial state, the first call succeeds and populates the cache, and the
repeated call answers from the cache without touching the transport. -/
theorem C5_cache_short_circuit_witness :
    (NetState.mk
        [("123456789012345",
          ⟨"123456789012345", some "BrandX", some "ModelY", "Desconhecido"⟩)]
        1 ["123456789012345"] []).cache.lookup "123456789012345" =
      some ⟨"123456789012345", some "BrandX", some "ModelY", "Desconhecido"⟩ ∧
    (get_device_info stubDone15 "123456789012345" "k"
        (NetState.mk
          [("123456789012345",
            ⟨"123456789012345", some "BrandX", some "ModelY", "Desconhecido"⟩)]
          1 ["123456789012345"] [])).1 =
      .val (some ⟨"123456789012345", some "BrandX", some "ModelY", "Desconhecido"⟩) ∧
    (get_device_info stubDone15 "123456789012345" "k"
        (NetState.mk
          [("123456789012345",
            ⟨"123456789012345", some "BrandX", some "ModelY", "Desconhecido"⟩)]
          1 ["123456789012345"] [])).2.calls =
      (NetState.mk
        [("123456789012345",
          ⟨"123456789012345", some "BrandX", some "ModelY", "Desconhecido"⟩)]
        1 ["123456789012345"] []).calls ∧
    (get_device_info stubDone15 "123456789012345" "k"
        (NetState.mk
          [("123456789012345",
            ⟨"123456789012345", some "BrandX", some "ModelY", "Desconhecido"⟩)]
          1 ["123456789012345"] [])).2.queries =
      (NetState.mk
        [("123456789012345",
          ⟨"123456789012345", some "BrandX", some "ModelY", "Desconhecido"⟩)]
        1 ["123456789012345"] []).queries ∧
    (get_device_info stubDone15 "123456789012345" "k"
        (NetState.mk
          [("123456789012345",
            ⟨"123456789012345", some "BrandX", some "ModelY", "Desconhecido"⟩)]
          1 ["123456789012345"] [])).2.cache =
      (NetState.mk
        [("123456789012345",
          ⟨"123456789012345", some "BrandX", some "ModelY", "Desconhecido"⟩)]
        1 ["123456789012345"] []).cache :=
  (C5_cache_short_circuit stubDone15 "123456789012345" "k" NetState.empty).2
    ⟨"123456789012345", some "BrandX", some "ModelY", "Desconhecido"⟩
    (NetState.mk
      [("123456789012345",
        ⟨"123456789012345", some "BrandX", some "ModelY", "Desconhecido"⟩)]
      1 ["123456789012345"] [])
    rfl

/-- C6 counterexample: a transport-level failure and a not-found payload are
not distinct values for the caller: get_device_info returns the same None in
both cases. -/
theorem C6_counterexample :
    (get_device_info stubFailAll "111111111111111" "k" NetState.empty).1 = .val none ∧
    (get_device_info stubNotFound "111111111111111" "k" NetState.empty).1 = .val none ∧
    (get_device_info stubFailAll "111111111111111" "k" NetState.empty).1 =
      (get_device_info stubNotFound "111111111111111" "k" NetState.empty).1 :=
  ⟨rfl, rfl, rfl⟩

/-- C6 amended: both failure classes return None to the caller; they are
distinguished only in the log stream, where a transport exception logs
"Erro na requisição ..." and a payload without Done status or result logs
"Erro na API ..." with the service message. -/
theorem C6_failure_logging (imei api_key e : String) (s : NetState)
    (data : Payload) (hmiss : s.cache.lookup imei = none)
    (hfail : data.status ≠ some "Done" ∨ data.result = none) :
    ((get_device_info (fun _ _ => .exn e) imei api_key s).1 = .val none ∧
     (get_device_info (fun _ _ => .exn e) imei api_key s).2.log =
       s.log ++ ["Erro na requisição para IMEI " ++ imei ++ ": " ++ e]) ∧
    ((get_device_info (fun _ _ => .ok data) imei api_key s).1 = .val none ∧
     (get_device_info (fun _ _ => .ok data) imei api_key s).2.log =
       s.log ++ ["Erro na API para IMEI " ++ imei ++ ": " ++ showOptMsg data.message]) := by
  refine ⟨⟨?_, ?_⟩, ?_⟩
  · simp [get_device_info, hmiss]
  · simp [get_device_info, hmiss]
  · cases hr : data.result with
    | none => constructor <;> simp [get_device_info, hmiss, hr]
    | some res =>
      have hst : ¬data.status = some "Done" := by
        rcases hfail with h | h
        · exact h
        · rw [hr] at h; cases h
      constructor <;> simp [get_device_info, hmiss, hr, hst]

/-- C6 amended witness at a concrete identifier, transport error and
not-found payload. -/
theorem C6_failure_logging_witness :
    ((get_device_info (fun _ _ => .exn "disconnected") "111111111111111" "k"
        NetState.empty).1 = .val none ∧
     (get_device_info (fun _ _ => .exn "disconnected") "111111111111111" "k"
        NetState.empty).2.log =
       NetState.empty.log ++
         ["Erro na requisição para IMEI " ++ "111111111111111" ++ ": " ++ "disconnected"]) ∧
    ((get_device_info (fun _ _ => .ok ⟨some "Error", none, some "IMEI not found"⟩)
        "111111111111111" "k" NetState.empty).1 = .val none ∧
     (get_device_info (fun _ _ => .ok ⟨some "Error", none, some "IMEI not found"⟩)
        "111111111111111" "k" NetState.empty).2.log =
       NetState.empty.log ++
         ["Erro na API para IMEI " ++ "111111111111111" ++ ": " ++
           showOptMsg (some "IMEI not found")]) :=
  C6_failure_logging "111111111111111" "k" "disconnected" NetState.empty
    ⟨some "Error", none, some "IMEI not found"⟩ rfl (Or.inr rfl)

/-- C10: get_device_info is total at its interface: whatever the transport
does (including raising), the call returns a value — the val constructor —
and never propagates an exception to its caller. -/
theorem C10_no_exception_escapes (t : Transport) (imei api_key : String)
    (s : NetState) :
    ∃ v s1, get_device_info t imei api_key s = (.val v, s1) :=
  get_device_info_val t imei api_key s

/-! ### Helper lemmas: the completion loop -/

/-- The completion loop never propagates an exception (its body never
raises). -/
lemma tryDigitsAux_val (t : Transport) (api_key imei : String) :
    ∀ (k d : Nat) (net : NetState),
    ∃ v net1, tryDigitsAux t api_key imei k d net = (.val v, net1) := by
  intro k
  induction k with
  | zero => intro d net; exact ⟨none, net, rfl⟩
  | succ k ih =>
    intro d net
    obtain ⟨v, s1, hfull⟩ := get_device_info_val t (imei ++ toString d) api_key net
    cases v with
    | some r => exact ⟨some r, s1, by simp only [tryDigitsAux, hfull]⟩
    | none =>
      obtain ⟨v1, net1, h1⟩ := ih (d + 1) s1
      exact ⟨v1, net1, by simp only [tryDigitsAux, hfull]; exact h1⟩

/-- Characterization of the completion loop on a window of candidates none
of which is cached: the result is the outcome of the first successful
candidate (None when all fail), and the transport is queried for exactly the
candidates up to and including the first success, in ascending order. -/
lemma tryDigitsAux_spec (t : Transport) (api_key base : String) :
    ∀ (k d : Nat) (net : NetState),
    (∀ j, d ≤ j → j < d + k → net.cache.lookup (base ++ toString j) = none) →
    (tryDigitsAux t api_key base k d net).1 =
      .val (match firstHit t api_key base d k with
            | some j => candOutcome t api_key base j
            | none => none) ∧
    (tryDigitsAux t api_key base k d net).2.queries =
      net.queries ++ (List.range' d (stopLen t api_key base d k)).map
        (fun j => base ++ toString j) := by
  intro k
  induction k with
  | zero =>
    intro d net _
    simp [tryDigitsAux, firstHit, stopLen]
  | succ k ih =>
    intro d net hc
    have hmiss : net.cache.lookup (base ++ toString d) = none :=
      hc d (Nat.le_refl d) (by omega)
    obtain ⟨v, s1, hfull⟩ := get_device_info_val t (base ++ toString d) api_key net
    have hv : v = candOutcome t api_key base d := by
      have h1 := get_device_info_miss_val t (base ++ toString d) api_key net hmiss
      rw [hfull] at h1
      injection h1
    have hs1q : s1.queries = net.queries ++ [base ++ toString d] := by
      have := get_device_info_miss_queries t (base ++ toString d) api_key net hmiss
      rw [hfull] at this
      exact this
    have hrange : List.range' d (k + 1) = d :: List.range' (d + 1) k :=
      List.range'_succ d k 1
    cases hout : candOutcome t api_key base d with
    | some r =>
      rw [hout] at hv
      subst hv
      have hloop : tryDigitsAux t api_key base (k + 1) d net = (.val (some r), s1) := by
        simp only [tryDigitsAux, hfull]
      have hfirst : firstHit t api_key base d (k + 1) = some d := by
        rw [firstHit, hrange, List.find?_cons_of_pos _ (by simp [hout])]
      have hstop : stopLen t api_key base d (k + 1) = 1 := by
        rw [stopLen, hfirst]
        simp
      refine ⟨?_, ?_⟩
      · rw [hloop, hfirst]
        simp [hout]
      · rw [hloop, hstop, hs1q, show List.range' d 1 = [d] from rfl]
        simp
    | none =>
      rw [hout] at hv
      subst hv
      have hloop : tryDigitsAux t api_key base (k + 1) d net =
          tryDigitsAux t api_key base k (d + 1) s1 := by
        simp only [tryDigitsAux, hfull]
      have hs1c : s1.cache = net.cache := by
        have hmc := get_device_info_miss_cache t (base ++ toString d) api_key net hmiss
        rw [hfull] at hmc
        rw [hmc, show netOutcome t (base ++ toString d) api_key = none from hout]
      have hc1 : ∀ j, d + 1 ≤ j → j < d + 1 + k →
          s1.cache.lookup (base ++ toString j) = none := by
        intro j h1 h2
        rw [hs1c]
        exact hc j (by omega) (by omega)
      obtain ⟨ih1, ih2⟩ := ih (d + 1) s1 hc1
      have hfirst : firstHit t api_key base d (k + 1) = firstHit t api_key base (d + 1) k := by
        rw [firstHit, hrange, List.find?_cons_of_neg]
        · rfl
        · simp [hout]
      have hstop : stopLen t api_key base d (k + 1) =
          stopLen t api_key base (d + 1) k + 1 := by
        rw [stopLen, stopLen, hfirst]
        cases hf : firstHit t api_key base (d + 1) k with
        | none => simp
        | some j =>
          have hjmem : j ∈ List.range' (d + 1) k := List.mem_of_find?_eq_some hf
          have hdj : d + 1 ≤ j := (List.mem_range'_1.mp hjmem).1
          simp only []
          omega
      refine ⟨?_, ?_⟩
      · rw [hloop, ih1, hfirst]
      · rw [hloop, ih2, hs1q, hstop, List.range'_succ]
        simp

/-! ### Claim C1: the completion sweep -/

/-- C1: with no candidate cached, the completion loop queries the candidates
base ++ "0", base ++ "1", ... strictly sequentially in ascending order up to
and including the first success (the query trace equals that exact list),
returns the no-valid-completion failure (None, reported as the "Nenhum IMEI
válido encontrado" error by the orchestrator) if and only if all 10
candidates fail, and under a stub where exactly digit 7 succeeds issues
exactly 8 candidate queries. -/
theorem C1_completion_sweep (t : Transport) (api_key base : String)
    (net : NetState)
    (hc : ∀ d, d < 10 → net.cache.lookup (base ++ toString d) = none) :
    ((tryDigits t api_key base net).1 = .val none ↔
      ∀ d, d < 10 → candOutcome t api_key base d = none) ∧
    (tryDigits t api_key base net).2.queries =
      net.queries ++ (List.range' 0 (stopLen t api_key base 0 10)).map
        (fun j => base ++ toString j) ∧
    ((∀ d, d < 10 → ((candOutcome t api_key base d).isSome = true ↔ d = 7)) →
      (tryDigits t api_key base net).2.queries.length = net.queries.length + 8) := by
  obtain ⟨hres, hq⟩ := tryDigitsAux_spec t api_key base 10 0 net
    (fun j h0 hj => hc j (by omega))
  refine ⟨?_, hq, ?_⟩
  · rw [tryDigits, hres]
    cases hf : firstHit t api_key base 0 10 with
    | none =>
      simp only []
      constructor
      · intro _ d hd
        have hnone := List.find?_eq_none.mp hf d
          (by rw [List.mem_range'_1]; omega)
        simpa using hnone
      · intro _; trivial
    | some j =>
      have hf1 : (List.range' 0 10).find?
          (fun j => (candOutcome t api_key base j).isSome) = some j := hf
      have hpj0 := List.find?_some hf1
      have hpj : (candOutcome t api_key base j).isSome = true := hpj0
      have hjmem : j ∈ List.range' 0 10 := List.mem_of_find?_eq_some hf1
      have hj10 : j < 10 := by
        have := List.mem_range'_1.mp hjmem
        omega
      simp only []
      constructor
      · intro hcontr
        exfalso
        obtain ⟨r, hr⟩ := Option.isSome_iff_exists.mp hpj
        rw [hr] at hcontr
        injection hcontr with h1
        exact Option.noConfusion h1
      · intro hall
        exfalso
        rw [hall j hj10] at hpj
        cases hpj
  · intro h7
    have efail : ∀ d, d < 7 → (candOutcome t api_key base d).isSome = false := by
      intro d hd
      cases hsome : (candOutcome t api_key base d).isSome with
      | false => rfl
      | true => exact absurd ((h7 d (by omega)).mp hsome) (by omega)
    have e7 : (candOutcome t api_key base 7).isSome = true :=
      (h7 7 (by omega)).mpr rfl
    have hstop : stopLen t api_key base 0 10 = 8 := by
      rw [stopLen, firstHit, show List.range' 0 10 = [0,1,2,3,4,5,6,7,8,9] from rfl]
      simp [List.find?, efail 0 (by omega), efail 1 (by omega), efail 2 (by omega),
        efail 3 (by omega), efail 4 (by omega), efail 5 (by omega),
        efail 6 (by omega), e7]
    rw [tryDigits, hq, hstop]
    simp

/-- C1 witness: the stub where exactly the digit-7 completion of
"12345678901234" succeeds issues exactly 8 queries from an empty state. -/
theorem C1_completion_sweep_witness :
    (tryDigits stubDigit7 "k" "12345678901234" NetState.empty).2.queries.length =
      NetState.empty.queries.length + 8 :=
  (C1_completion_sweep stubDigit7 "k" "12345678901234" NetState.empty
      (fun _ _ => rfl)).2.2 (by decide)

/-! ### Helper lemmas: the batch loop -/

/-- A blank line (empty after stripping) is skipped without any effect. -/
lemma process_one_skip (t : Transport) (api_key : String) (st : BatchState)
    (imei : String) (hb : py_strip imei = "") :
    process_one t api_key st imei = st := by
  simp [process_one, hb]

/-- An identifier failing validation records exactly the validation-error
dialog and changes nothing else (in particular it does not advance the
progress bar). -/
lemma process_one_invalid (t : Transport) (api_key : String) (st : BatchState)
    (imei : String) (hb : ¬ py_strip imei = "")
    (hv : ¬(py_isdigit imei = true ∧ (imei.length = 14 ∨ imei.length = 15))) :
    process_one t api_key st imei =
      { st with attempted := st.attempted ++ [imei],
                events := st.events ++
                  [.showError ("IMEI inválido: " ++ imei ++ "\nMotivo: IMEI inválido.")] } := by
  simp [process_one, hb, hv]

/-- A 15-digit identifier whose direct lookup fails produces no view event:
only the network state and the progress bar change. -/
lemma process_one_silent15 (t : Transport) (api_key : String) (st : BatchState)
    (imei : String) (s1 : NetState) (hb : ¬ py_strip imei = "")
    (hd : py_isdigit imei = true) (h15 : imei.length = 15)
    (hfail : get_device_info t imei api_key st.net = (.val none, s1)) :
    process_one t api_key st imei =
      { st with attempted := st.attempted ++ [imei],
                net := s1,
                progress := st.progress + 1 } := by
  simp [process_one, hb, hd, h15, hfail]

/-- Progress accounting of one loop iteration: the progress bar advances
exactly on identifiers that are non-blank and pass validation, whatever the
resolution outcome. -/
lemma process_one_progress (t : Transport) (api_key : String) (st : BatchState)
    (imei : String) :
    (process_one t api_key st imei).progress =
      st.progress + (if py_strip imei ≠ "" ∧ py_isdigit imei = true ∧
        (imei.length = 14 ∨ imei.length = 15) then 1 else 0) := by
  by_cases hb : py_strip imei = ""
  · simp [process_one, hb]
  · by_cases hv : py_isdigit imei = true ∧ (imei.length = 14 ∨ imei.length = 15)
    · by_cases h14 : imei.length = 14
      · obtain ⟨v, net1, htd⟩ := tryDigitsAux_val t api_key imei 10 0
          ({ st with attempted := st.attempted ++ [imei] }).net
        have htd1 : tryDigits t api_key imei
            ({ st with attempted := st.attempted ++ [imei] }).net = (.val v, net1) := htd
        cases v with
        | some r => simp [process_one, hb, hv, hv.1, hv.2, h14, htd1]
        | none => simp [process_one, hb, hv, hv.1, hv.2, h14, htd1]
      · have h15 : imei.length = 15 := hv.2.resolve_left h14
        obtain ⟨v, s1, hg⟩ := get_device_info_val t imei api_key
          ({ st with attempted := st.attempted ++ [imei] }).net
        cases v with
        | some r => simp [process_one, hb, hv, hv.1, h14, h15, hg]
        | none => simp [process_one, hb, hv, hv.1, h14, h15, hg]
    · simp [process_one, hb, hv]

/-- Attempt accounting of one loop iteration: exactly the non-blank
identifiers enter the try block, one each, whatever happens inside. -/
lemma process_one_attempted (t : Transport) (api_key : String) (st : BatchState)
    (imei : String) :
    (process_one t api_key st imei).attempted =
      st.attempted ++ (if py_strip imei = "" then [] else [imei]) := by
  by_cases hb : py_strip imei = ""
  · simp [process_one, hb]
  · by_cases hv : py_isdigit imei = true ∧ (imei.length = 14 ∨ imei.length = 15)
    · by_cases h14 : imei.length = 14
      · obtain ⟨v, net1, htd⟩ := tryDigitsAux_val t api_key imei 10 0
          ({ st with attempted := st.attempted ++ [imei] }).net
        have htd1 : tryDigits t api_key imei
            ({ st with attempted := st.attempted ++ [imei] }).net = (.val v, net1) := htd
        cases v with
        | some r => simp [process_one, hb, hv, hv.1, hv.2, h14, htd1]
        | none => simp [process_one, hb, hv, hv.1, hv.2, h14, htd1]
      · have h15 : imei.length = 15 := hv.2.resolve_left h14
        obtain ⟨v, s1, hg⟩ := get_device_info_val t imei api_key
          ({ st with attempted := st.attempted ++ [imei] }).net
        cases v with
        | some r => simp [process_one, hb, hv, hv.1, h14, h15, hg]
        | none => simp [process_one, hb, hv, hv.1, h14, h15, hg]
    · simp [process_one, hb, hv]

/-- The batch fold attempts exactly the non-blank identifiers, in order,
independently of the transport's behaviour. -/
lemma foldl_attempted (t : Transport) (api_key : String) :
    ∀ (l : List String) (st : BatchState),
    (l.foldl (process_one t api_key) st).attempted =
      st.attempted ++ l.filter (fun s => !(py_strip s == "")) := by
  intro l
  induction l with
  | nil => intro st; simp
  | cons a l ih =>
    intro st
    rw [List.foldl_cons, ih, process_one_attempted]
    by_cases hb : py_strip a = "" <;>
      simp [hb, List.filter_cons]

/-! ### Claims C3, C7, C9: the batch loop -/

/-- C3 counterexample: the identifier "123" reaches a terminal outcome (its
validation-error dialog is recorded), yet the progress counter stays at 0 —
the counter is not advanced after every terminal outcome. -/
theorem C3_counterexample :
    outcomeEvents (process_imeis stubFailAll "k" ["123"]) =
      [.showError "IMEI inválido: 123\nMotivo: IMEI inválido."] ∧
    (process_imeis stubFailAll "k" ["123"]).progress = 0 :=
  ⟨rfl, rfl⟩

/-- C3 amended: the progress counter advances exactly after identifiers that
are non-blank and pass validation (whatever their resolution outcome);
validation failures and skipped blanks do not advance it. Moreover the
claim's stub scenario is unrealizable — "123456789012345" is itself the
digit-5 completion of "12345678901234" — and with a transport succeeding
exactly on "123456789012345" the claimed batch ends with the counter at 2,
not 3. -/
theorem C3_progress_rule :
    (∀ (t : Transport) (api_key : String) (st : BatchState) (imei : String),
      (process_one t api_key st imei).progress =
        st.progress + (if py_strip imei ≠ "" ∧ py_isdigit imei = true ∧
          (imei.length = 14 ∨ imei.length = 15) then 1 else 0)) ∧
    (process_imeis stubDone15 "k"
      ["", "123", "12345678901234", "123456789012345"]).progress = 2 :=
  ⟨process_one_progress, rfl⟩

/-- C7 counterexample: the single identifier "123456789012345" is attempted
and its direct lookup fails, but no outcome is recorded for it — a failed
15-digit lookup is silent, so not every outcome reaches the batch result. -/
theorem C7_counterexample :
    (process_imeis stubFailAll "k" ["123456789012345"]).attempted =
      ["123456789012345"] ∧
    outcomeEvents (process_imeis stubFailAll "k" ["123456789012345"]) = [] :=
  ⟨rfl, rfl⟩

/-- C7 amended: no failure is fatal to the batch — for every transport
behaviour, exactly the non-blank identifiers are attempted, in order, so a
failure for one identifier never prevents later ones from being attempted;
but a 15-digit identifier whose direct lookup fails is silent: it produces
no view event, only the progress advance. -/
theorem C7_batch_continuation :
    (∀ (t : Transport) (api_key : String) (imeis : List String),
      api_key ≠ "" → imeis ≠ [] →
      (process_imeis t api_key imeis).attempted =
        imeis.filter (fun s => !(py_strip s == ""))) ∧
    (∀ (t : Transport) (api_key : String) (st : BatchState) (imei : String)
      (s1 : NetState),
      ¬ py_strip imei = "" → py_isdigit imei = true → imei.length = 15 →
      get_device_info t imei api_key st.net = (.val none, s1) →
      (process_one t api_key st imei).events = st.events ∧
      (process_one t api_key st imei).progress = st.progress + 1) := by
  constructor
  · intro t api_key imeis hk hne
    simp only [process_imeis, if_neg (show ¬(api_key = "" ∨ imeis = []) by
      simp [hk, hne])]
    split_ifs <;> simp [foldl_attempted, BatchState.init]
  · intro t api_key st imei s1 hb hd h15 hfail
    rw [process_one_silent15 t api_key st imei s1 hb hd h15 hfail]
    exact ⟨rfl, rfl⟩

/-- C7 witness: concrete instances of both parts — the failing 15-digit
batch still attempts its identifier, and the failing direct lookup advances
progress with no event. -/
theorem C7_batch_continuation_witness :
    (process_imeis stubFailAll "k" ["123456789012345"]).attempted =
      (["123456789012345"] : List String).filter (fun s => !(py_strip s == "")) ∧
    ((process_one stubFailAll "k" BatchState.init "123456789012345").events =
        BatchState.init.events ∧
      (process_one stubFailAll "k" BatchState.init "123456789012345").progress =
        BatchState.init.progress + 1) :=
  ⟨C7_batch_continuation.1 stubFailAll "k" ["123456789012345"]
      (by decide) (by decide),
   C7_batch_continuation.2 stubFailAll "k" BatchState.init "123456789012345"
      ⟨[], 1, ["123456789012345"],
        ["Erro na requisição para IMEI 123456789012345: disconnected"]⟩
      (by decide) (by decide) (by decide) rfl⟩

/-- C9 counterexample: the input " 123456789012345" is a resolvable 15-digit
identifier after stripping (the un-padded string resolves under the same
stub), yet the batch rejects it as a validation error and issues no query —
validation does not operate on the trimmed string. -/
theorem C9_counterexample :
    py_strip " 123456789012345" = "123456789012345" ∧
    outcomeEvents (process_imeis stubDone15 "k" [" 123456789012345"]) =
      [.showError "IMEI inválido:  123456789012345\nMotivo: IMEI inválido."] ∧
    (process_imeis stubDone15 "k" [" 123456789012345"]).net.calls = 0 ∧
    (process_imeis stubDone15 "k" ["123456789012345"]).events =
      [.addResult ⟨"123456789012345", some "BrandX", some "ModelY", "Desconhecido"⟩,
       .showInfo "Consulta concluída. Use o menu 'Arquivo' para exportar os resultados."] :=
  ⟨rfl, rfl, rfl, rfl⟩

/-- C9 amended: stripping is used only to decide skipping — a string that is
blank after stripping is skipped entirely (no state change, no outcome, no
progress), while every other string is validated and resolved in raw,
untrimmed form, so surrounding whitespace makes validation fail. -/
theorem C9_strip_only_for_skip :
    (∀ (t : Transport) (api_key : String) (st : BatchState) (imei : String),
      py_strip imei = "" → process_one t api_key st imei = st) ∧
    (∀ (t : Transport) (api_key : String) (st : BatchState) (imei : String),
      ¬ py_strip imei = "" →
      ¬(py_isdigit imei = true ∧ (imei.length = 14 ∨ imei.length = 15)) →
      process_one t api_key st imei =
        { st with attempted := st.attempted ++ [imei],
                  events := st.events ++
                    [.showError ("IMEI inválido: " ++ imei ++ "\nMotivo: IMEI inválido.")] }) :=
  ⟨process_one_skip, process_one_invalid⟩

/-- C9 witness: concrete instances — a whitespace-only line is skipped
without effect, and the whitespace-padded valid identifier is recorded as a
validation error. -/
theorem C9_strip_only_for_skip_witness :
    process_one stubDone15 "k" BatchState.init "  " = BatchState.init ∧
    process_one stubDone15 "k" BatchState.init " 123456789012345" =
      { BatchState.init with
          attempted := BatchState.init.attempted ++ [" 123456789012345"],
          events := BatchState.init.events ++
            [.showError ("IMEI inválido: " ++ " 123456789012345" ++
              "\nMotivo: IMEI inválido.")] } :=
  ⟨C9_strip_only_for_skip.1 stubDone15 "k" BatchState.init "  " (by decide),
   C9_strip_only_for_skip.2 stubDone15 "k" BatchState.init " 123456789012345"
     (by decide) (by decide)⟩

end IMEIChecker
